import Mathlib

/-!
# Verification of the AIGM real-time fan-out and presence subsystem

Shallow embedding of `backend/app/services/realtime_service.py`,
`backend/app/services/presence_service.py` and the presence endpoint
validators of `backend/app/api/api_v1/endpoints/realtime.py`, together
with theorems settling the specification claims about the channel naming
scheme, the capability builder, the event publisher and the presence
tracker.

Conventions of the embedding:
* Python `None`/optional strings become `Option String`; Python truthiness
  of an optional string (`if x:`) is `truthy`, false for `None` and for
  the empty string.
* Python dict payloads become the inductive `Json`; `dict.update` becomes
  `dictUpdate` (replace value of an existing key in place, append new keys).
* The Ably client (`self.client`, possibly unconfigured) becomes
  `Option Transport`; each transport call returns a `CallResult` where
  `.err` models the call raising an exception.
* A function body that may raise returns `PyResult`; a `try/except`
  block that catches, logs and returns a value maps the `.raised` case to
  the handler's `.normal` result.  `datetime.utcnow().isoformat()` is an
  explicit `now : String` argument.
* Each publish-like function additionally returns the list of transport
  invocations it performed (`List Push` / `List PresenceCall`), so that
  "the transport is never invoked" is the statement that this list is empty.
-/

namespace AIGM

/-- Python dict/JSON-like payload values (the `data` dictionaries). -/
inductive Json where
  | null : Json
  | str (s : String) : Json
  | obj (fields : List (String × Json)) : Json

/-- Result of a Python call boundary: either a normal return value or a
raised exception carrying a message. -/
inductive PyResult (α : Type) where
  | normal (v : α) : PyResult α
  | raised (msg : String) : PyResult α
deriving Repr

/-- Outcome of one call into the external transport (Ably): `.ok` for a
successful call, `.err` for the call raising an exception. -/
inductive CallResult where
  | ok : CallResult
  | err (msg : String) : CallResult

/-- Behaviour of the external Ably transport: what each
`channel.publish(name, event)`, `channel.presence.enter(data)` and
`channel.presence.leave(data)` call does, keyed by channel name. -/
structure Transport where
  push : String → String → CallResult
  presenceEnter : String → CallResult
  presenceLeave : String → CallResult

/-- The wire envelope built by every publish method:
`{"type": ..., "data": ..., "timestamp": ..., "user_id": ...}`. -/
structure Envelope where
  type : String
  data : Json
  timestamp : String
  user_id : Option String

/-- One `channel.publish(name, event)` invocation handed to the transport. -/
structure Push where
  channel : String
  name : String
  envelope : Envelope

/-- Python truthiness of an `Optional[str]`: `None` and `""` are falsy. -/
def truthy : Option String → Bool
  | none => false
  | some s => !(s == "")

/-- `RealtimeService.publish_to_room`: publish to `room:{server_id}:{room_id}`.
Returns `False` when the client is not initialized; builds the envelope,
publishes, returns `True`; any exception from the publish call is caught
and converted to `False`. -/
def publish_to_room (client : Option Transport) (server_id room_id : String)
    (event_type : String) (data : Json) (user_id : Option String)
    (now : String) : PyResult Bool × List Push :=
  match client with
  | none => (.normal false, [])
  | some t =>
    let channel_name := "room:" ++ server_id ++ ":" ++ room_id
    let event : Envelope :=
      { type := event_type, data := data, timestamp := now, user_id := user_id }
    match t.push channel_name event_type with
    | .ok => (.normal true, [⟨channel_name, event_type, event⟩])
    | .err _ => (.normal false, [⟨channel_name, event_type, event⟩])

/-- `RealtimeService.publish_to_dm`: publish to `dm:{conversation_id}`. -/
def publish_to_dm (client : Option Transport) (conversation_id : String)
    (event_type : String) (data : Json) (user_id : Option String)
    (now : String) : PyResult Bool × List Push :=
  match client with
  | none => (.normal false, [])
  | some t =>
    let channel_name := "dm:" ++ conversation_id
    let event : Envelope :=
      { type := event_type, data := data, timestamp := now, user_id := user_id }
    match t.push channel_name event_type with
    | .ok => (.normal true, [⟨channel_name, event_type, event⟩])
    | .err _ => (.normal false, [⟨channel_name, event_type, event⟩])

/-- `RealtimeService.publish_to_user`: publish to the personal channel
`user:{user_id}`; note the envelope's `user_id` field is the same
`user_id` that names the channel (the channel owner). -/
def publish_to_user (client : Option Transport) (user_id : String)
    (event_type : String) (data : Json) (now : String) :
    PyResult Bool × List Push :=
  match client with
  | none => (.normal false, [])
  | some t =>
    let channel_name := "user:" ++ user_id
    let event : Envelope :=
      { type := event_type, data := data, timestamp := now, user_id := some user_id }
    match t.push channel_name event_type with
    | .ok => (.normal true, [⟨channel_name, event_type, event⟩])
    | .err _ => (.normal false, [⟨channel_name, event_type, event⟩])

/-- `RealtimeService.publish_to_server`: publish to `server:{server_id}`. -/
def publish_to_server (client : Option Transport) (server_id : String)
    (event_type : String) (data : Json) (user_id : Option String)
    (now : String) : PyResult Bool × List Push :=
  match client with
  | none => (.normal false, [])
  | some t =>
    let channel_name := "server:" ++ server_id
    let event : Envelope :=
      { type := event_type, data := data, timestamp := now, user_id := user_id }
    match t.push channel_name event_type with
    | .ok => (.normal true, [⟨channel_name, event_type, event⟩])
    | .err _ => (.normal false, [⟨channel_name, event_type, event⟩])

/-- `RealtimeService.publish_message_created`: route a `message.created`
event to the room channel when both `room_id` and `server_id` are truthy,
else to the DM channel when `conversation_id` is truthy, else log an error
and return `False` without touching the transport. -/
def publish_message_created (client : Option Transport) (message_data : Json)
    (server_id room_id conversation_id user_id : Option String)
    (now : String) : PyResult Bool × List Push :=
  if truthy room_id && truthy server_id then
    publish_to_room client (server_id.getD "") (room_id.getD "")
      "message.created" message_data user_id now
  else if truthy conversation_id then
    publish_to_dm client (conversation_id.getD "")
      "message.created" message_data user_id now
  else
    (.normal false, [])

/-- `RealtimeService.publish_message_updated`. -/
def publish_message_updated (client : Option Transport) (message_data : Json)
    (server_id room_id conversation_id user_id : Option String)
    (now : String) : PyResult Bool × List Push :=
  if truthy room_id && truthy server_id then
    publish_to_room client (server_id.getD "") (room_id.getD "")
      "message.updated" message_data user_id now
  else if truthy conversation_id then
    publish_to_dm client (conversation_id.getD "")
      "message.updated" message_data user_id now
  else
    (.normal false, [])

/-- `RealtimeService.publish_message_deleted`: payload
`{"message_id": ..., "deleted_by": ...}`, originator `deleted_by`. -/
def publish_message_deleted (client : Option Transport)
    (message_id deleted_by : String)
    (server_id room_id conversation_id : Option String)
    (now : String) : PyResult Bool × List Push :=
  let data : Json := .obj [("message_id", .str message_id),
                           ("deleted_by", .str deleted_by)]
  if truthy room_id && truthy server_id then
    publish_to_room client (server_id.getD "") (room_id.getD "")
      "message.deleted" data (some deleted_by) now
  else if truthy conversation_id then
    publish_to_dm client (conversation_id.getD "")
      "message.deleted" data (some deleted_by) now
  else
    (.normal false, [])

/-- `RealtimeService.publish_reaction_added`: payload
`{"message_id", "emoji", "user_id", "username"}`. -/
def publish_reaction_added (client : Option Transport)
    (message_id emoji user_id username : String)
    (server_id room_id conversation_id : Option String)
    (now : String) : PyResult Bool × List Push :=
  let data : Json := .obj [("message_id", .str message_id),
                           ("emoji", .str emoji),
                           ("user_id", .str user_id),
                           ("username", .str username)]
  if truthy room_id && truthy server_id then
    publish_to_room client (server_id.getD "") (room_id.getD "")
      "reaction.added" data (some user_id) now
  else if truthy conversation_id then
    publish_to_dm client (conversation_id.getD "")
      "reaction.added" data (some user_id) now
  else
    (.normal false, [])

/-- `RealtimeService.publish_reaction_removed`. -/
def publish_reaction_removed (client : Option Transport)
    (message_id emoji user_id username : String)
    (server_id room_id conversation_id : Option String)
    (now : String) : PyResult Bool × List Push :=
  let data : Json := .obj [("message_id", .str message_id),
                           ("emoji", .str emoji),
                           ("user_id", .str user_id),
                           ("username", .str username)]
  if truthy room_id && truthy server_id then
    publish_to_room client (server_id.getD "") (room_id.getD "")
      "reaction.removed" data (some user_id) now
  else if truthy conversation_id then
    publish_to_dm client (conversation_id.getD "")
      "reaction.removed" data (some user_id) now
  else
    (.normal false, [])

/-- `RealtimeService.publish_typing_start`: payload
`{"user_id", "username", "action": "start"}`. -/
def publish_typing_start (client : Option Transport)
    (user_id username : String)
    (server_id room_id conversation_id : Option String)
    (now : String) : PyResult Bool × List Push :=
  let data : Json := .obj [("user_id", .str user_id),
                           ("username", .str username),
                           ("action", .str "start")]
  if truthy room_id && truthy server_id then
    publish_to_room client (server_id.getD "") (room_id.getD "")
      "typing.start" data (some user_id) now
  else if truthy conversation_id then
    publish_to_dm client (conversation_id.getD "")
      "typing.start" data (some user_id) now
  else
    (.normal false, [])

/-- `RealtimeService.publish_typing_stop`: payload
`{"user_id", "username", "action": "stop"}`. -/
def publish_typing_stop (client : Option Transport)
    (user_id username : String)
    (server_id room_id conversation_id : Option String)
    (now : String) : PyResult Bool × List Push :=
  let data : Json := .obj [("user_id", .str user_id),
                           ("username", .str username),
                           ("action", .str "stop")]
  if truthy room_id && truthy server_id then
    publish_to_room client (server_id.getD "") (room_id.getD "")
      "typing.stop" data (some user_id) now
  else if truthy conversation_id then
    publish_to_dm client (conversation_id.getD "")
      "typing.stop" data (some user_id) now
  else
    (.normal false, [])

/-- The per-recipient fan-out loop shared by
`publish_friend_online`, `publish_friend_offline` and
`publish_user_presence`: for each recipient id, one `publish_to_user` to
that recipient's personal channel; a falsy per-recipient result flips the
aggregate `success` flag but the loop continues; an exception escaping a
`publish_to_user` call would abort the loop and propagate. -/
def fanout (client : Option Transport) (event_type : String) (data : Json)
    (now : String) : List String → Bool → PyResult Bool × List Push
  | [], success => (.normal success, [])
  | friend_id :: rest, success =>
    match publish_to_user client friend_id event_type data now with
    | (.raised m, ps) => (.raised m, ps)
    | (.normal b, ps) =>
      let r := fanout client event_type data now rest (success && b)
      (r.1, ps ++ r.2)

/-- `RealtimeService.publish_friend_online`: payload
`{"user": user_data, "status": "online"}`, one `publish_to_user` per
friend id, aggregate success. -/
def publish_friend_online (client : Option Transport)
    (friend_user_ids : List String) (user_data : Json)
    (now : String) : PyResult Bool × List Push :=
  let data : Json := .obj [("user", user_data), ("status", .str "online")]
  match fanout client "friend.online" data now friend_user_ids true with
  | (.raised _, ps) => (.normal false, ps)
  | (.normal b, ps) => (.normal b, ps)

/-- `RealtimeService.publish_friend_offline`. -/
def publish_friend_offline (client : Option Transport)
    (friend_user_ids : List String) (user_data : Json)
    (now : String) : PyResult Bool × List Push :=
  let data : Json := .obj [("user", user_data), ("status", .str "offline")]
  match fanout client "friend.offline" data now friend_user_ids true with
  | (.raised _, ps) => (.normal false, ps)
  | (.normal b, ps) => (.normal b, ps)

/-- `RealtimeService.publish_user_presence`: returns `True` immediately
when the friend list is falsy (`None` or empty); otherwise payload
`{"user": user_data, "status": status, "timestamp": now}` and one
`publish_to_user` with event type `presence.{status}` per friend id,
aggregate success. -/
def publish_user_presence (client : Option Transport)
    (user_id status : String) (user_data : Json)
    (friend_user_ids : Option (List String))
    (now : String) : PyResult Bool × List Push :=
  match friend_user_ids with
  | none => (.normal true, [])
  | some friends =>
    if friends.isEmpty then (.normal true, [])
    else
      let data : Json := .obj [("user", user_data), ("status", .str status),
                               ("timestamp", .str now)]
      match fanout client ("presence." ++ status) data now friends true with
      | (.raised _, ps) => (.normal false, ps)
      | (.normal b, ps) => (.normal b, ps)

/-- One presence call handed to the transport
(`channel.presence.enter/leave`). -/
structure PresenceCall where
  isEnter : Bool
  channel : String
  data : Option Json

/-- `RealtimeService.enter_presence`: `False` when the client is missing,
else `channel.presence.enter(user_data)`, exceptions caught as `False`. -/
def enter_presence (client : Option Transport) (user_id : String)
    (channel_name : String) (user_data : Json) :
    PyResult Bool × List PresenceCall :=
  match client with
  | none => (.normal false, [])
  | some t =>
    match t.presenceEnter channel_name with
    | .ok => (.normal true, [⟨true, channel_name, some user_data⟩])
    | .err _ => (.normal false, [⟨true, channel_name, some user_data⟩])

/-- `RealtimeService.leave_presence`: `False` when the client is missing,
else `channel.presence.leave(user_data)`, exceptions caught as `False`. -/
def leave_presence (client : Option Transport) (user_id : String)
    (channel_name : String) (user_data : Option Json) :
    PyResult Bool × List PresenceCall :=
  match client with
  | none => (.normal false, [])
  | some t =>
    match t.presenceLeave channel_name with
    | .ok => (.normal true, [⟨false, channel_name, user_data⟩])
    | .err _ => (.normal false, [⟨false, channel_name, user_data⟩])

/-- Insert/overwrite in a Python-dict-like association list: an existing
key keeps its position and gets the new value, a new key is appended. -/
def dictInsert {α : Type} (m : List (String × α)) (k : String) (v : α) :
    List (String × α) :=
  if m.any (fun p => p.1 = k) then
    m.map (fun p => if p.1 = k then (k, v) else p)
  else
    m ++ [(k, v)]

/-- Python dict lookup over the association-list model. -/
def dictLookup {α : Type} : List (String × α) → String → Option α
  | [], _ => none
  | (k', v) :: rest, k => if k' = k then some v else dictLookup rest k

/-- Python `dict.update(other)`: insert every pair of `other` in order. -/
def dictUpdate {α : Type} (m other : List (String × α)) :
    List (String × α) :=
  other.foldl (fun acc kv => dictInsert acc kv.1 kv.2) m

/-- Helper for Python `s.split(':', 1)` guarded by `':' in s`: the
substring before the first `':'` and the rest, `none` when `s` has no
`':'`. -/
def splitFirstColonAux : List Char → List Char → Option (String × String)
  | [], _ => none
  | c :: rest, acc =>
    if c = ':' then some (String.mk acc.reverse, String.mk rest)
    else splitFirstColonAux rest (c :: acc)

/-- `s.split(':', 1)` when `':' in s`, else `none`. -/
def splitFirstColon (s : String) : Option (String × String) :=
  splitFirstColonAux s.data []

/-- Python truthiness of an `Optional[List]`: `None` and `[]` are falsy. -/
def truthyList : Option (List String) → Bool
  | none => false
  | some l => !l.isEmpty

/-- The channel-to-permission-set mapping of a token capability. -/
abbrev Caps := List (String × List String)

/-- The token request claims handed to `client.auth.create_token_request`
(signing itself is the external transport collaborator). -/
structure TokenRequest where
  client_id : String
  capability : Caps
  ttl : Nat

/-- `RealtimeService.generate_token_request`: `None` when the client is
missing; otherwise builds the capability dict starting from
`user:{user.id} -> ["subscribe"]`, then for each truthy membership list:
room entries containing `':'` are split at the first `':'` into
`(server_id, room_id)` and grant `subscribe, publish` on
`room:{server_id}:{room_id}` (entries without `':'` are skipped),
conversations grant `subscribe, publish` on `dm:{conversation_id}`,
servers grant `subscribe` on `server:{server_id}`; TTL one hour. -/
def generate_token_request (client_present : Bool) (user_id : String)
    (user_servers user_rooms user_conversations : Option (List String)) :
    Option TokenRequest :=
  if !client_present then none
  else
    let capabilities : Caps := [("user:" ++ user_id, ["subscribe"])]
    let capabilities :=
      if truthyList user_rooms then
        (user_rooms.getD []).foldl (fun caps room_info =>
          match splitFirstColon room_info with
          | some (server_id, room_id) =>
            dictInsert caps ("room:" ++ server_id ++ ":" ++ room_id)
              ["subscribe", "publish"]
          | none => caps) capabilities
      else capabilities
    let capabilities :=
      if truthyList user_conversations then
        (user_conversations.getD []).foldl (fun caps conversation_id =>
          dictInsert caps ("dm:" ++ conversation_id)
            ["subscribe", "publish"]) capabilities
      else capabilities
    let capabilities :=
      if truthyList user_servers then
        (user_servers.getD []).foldl (fun caps server_id =>
          dictInsert caps ("server:" ++ server_id)
            ["subscribe"]) capabilities
      else capabilities
    some { client_id := user_id, capability := capabilities,
           ttl := 3600 * 1000 }

/-- The capability map of a token request, `[]` when no token was built. -/
def tokenCaps : Option TokenRequest → Caps
  | none => []
  | some tr => tr.capability

/-- A domain scope, per the spec's `ChannelScope` data model; the source
renders each kind with the channel-prefix constants of
`RealtimeService.__init__`. -/
inductive ChannelScope where
  | room (serverID roomID : String)
  | dm (conversationID : String)
  | user (userID : String)
  | server (serverID : String)
deriving DecidableEq, Repr

/-- The channel-name rendering used throughout `RealtimeService`
(`publish_to_room/dm/user/server`, `generate_token_request`):
`room:{server_id}:{room_id}`, `dm:{conversation_id}`, `user:{user_id}`,
`server:{server_id}`.  The source performs no validation of the IDs. -/
def resolveScope : ChannelScope → String
  | .room serverID roomID => "room:" ++ serverID ++ ":" ++ roomID
  | .dm conversationID => "dm:" ++ conversationID
  | .user userID => "user:" ++ userID
  | .server serverID => "server:" ++ serverID

/-- A scope none of whose IDs contains the `':'` delimiter. -/
def scopeColonFree : ChannelScope → Bool
  | .room serverID roomID =>
      !(serverID.data.contains ':') && !(roomID.data.contains ':')
  | .dm conversationID => !(conversationID.data.contains ':')
  | .user userID => !(userID.data.contains ':')
  | .server serverID => !(serverID.data.contains ':')

/-- `app.models.friendship.FriendshipStatus`. -/
inductive FriendshipStatus where
  | pending
  | accepted
  | blocked
deriving DecidableEq, Repr

/-- A row of the `friendships` table (`app.models.friendship.Friendship`). -/
structure Friendship where
  user_id : String
  friend_id : String
  status : FriendshipStatus

/-- The fields of `app.models.user.User` that the presence service reads. -/
structure UserRow where
  id : String
  username : String
  picture_url : Option Json
  user_type : String

/-- The friendship query of `PresenceService.update_user_status` /
`PresenceService.get_user_friends`: the ids on the other side of every
ACCEPTED friendship involving the user. -/
def friendIdsOf (db : List Friendship) (uid : String) : List String :=
  (db.filter (fun f =>
    f.status = .accepted ∧ (f.user_id = uid ∨ f.friend_id = uid))).map
    (fun f => if f.user_id = uid then f.friend_id else f.user_id)

/-- The `user_data` payload of `PresenceService.update_user_status`:
`{"id", "username", "picture_url", "user_type", "last_seen"}` merged with
the optional metadata dict. -/
def statusUserData (user : UserRow) (metadata : Option (List (String × Json)))
    (now : String) : Json :=
  let base : List (String × Json) :=
    [("id", .str user.id), ("username", .str user.username),
     ("picture_url", user.picture_url.getD .null),
     ("user_type", .str user.user_type),
     ("last_seen", .str now)]
  match metadata with
  | none => .obj base
  | some md => .obj (dictUpdate base md)

/-- `PresenceService.update_user_status`: query the user's accepted
friendships, build the user payload, and return the outcome of
`publish_user_presence` to those friends.  No per-user status record is
written anywhere — the function's only effect is the fan-out, and its
result is exactly the fan-out's aggregate result. -/
def update_user_status (client : Option Transport) (db : List Friendship)
    (user : UserRow) (status : String)
    (metadata : Option (List (String × Json)))
    (now : String) : PyResult Bool × List Push :=
  let friend_ids := friendIdsOf db user.id
  let user_data := statusUserData user metadata now
  match publish_user_presence client user.id status user_data
      (some friend_ids) now with
  | (.raised _, ps) => (.normal false, ps)
  | (.normal b, ps) => (.normal b, ps)

/-- The `user_data` payload of `PresenceService.enter_channel_presence`. -/
def enterUserData (user : UserRow)
    (additional_data : Option (List (String × Json))) (now : String) : Json :=
  let base : List (String × Json) :=
    [("id", .str user.id), ("username", .str user.username),
     ("picture_url", user.picture_url.getD .null),
     ("user_type", .str user.user_type),
     ("entered_at", .str now)]
  match additional_data with
  | none => .obj base
  | some md => .obj (dictUpdate base md)

/-- `PresenceService.enter_channel_presence`: map the channel type to
`room:{id}` / `dm:{id}` / `server:{id}`; an unknown channel type is
logged and rejected with `False` before any transport call; otherwise
delegate to `RealtimeService.enter_presence`. -/
def enter_channel_presence (client : Option Transport) (user : UserRow)
    (channel_type channel_id : String)
    (additional_data : Option (List (String × Json)))
    (now : String) : PyResult Bool × List PresenceCall :=
  if channel_type = "room" then
    enter_presence client user.id ("room:" ++ channel_id)
      (enterUserData user additional_data now)
  else if channel_type = "dm" then
    enter_presence client user.id ("dm:" ++ channel_id)
      (enterUserData user additional_data now)
  else if channel_type = "server" then
    enter_presence client user.id ("server:" ++ channel_id)
      (enterUserData user additional_data now)
  else
    (.normal false, [])

/-- The `user_data` payload of `PresenceService.leave_channel_presence`:
`{"id", "username", "left_at"}` merged with the optional metadata. -/
def leaveUserData (user : UserRow)
    (additional_data : Option (List (String × Json))) (now : String) : Json :=
  let base : List (String × Json) :=
    [("id", .str user.id), ("username", .str user.username),
     ("left_at", .str now)]
  match additional_data with
  | none => .obj base
  | some md => .obj (dictUpdate base md)

/-- `PresenceService.leave_channel_presence`: same channel-type guard as
`enter_channel_presence`, then `RealtimeService.leave_presence`. -/
def leave_channel_presence (client : Option Transport) (user : UserRow)
    (channel_type channel_id : String)
    (additional_data : Option (List (String × Json)))
    (now : String) : PyResult Bool × List PresenceCall :=
  if channel_type = "room" then
    leave_presence client user.id ("room:" ++ channel_id)
      (some (leaveUserData user additional_data now))
  else if channel_type = "dm" then
    leave_presence client user.id ("dm:" ++ channel_id)
      (some (leaveUserData user additional_data now))
  else if channel_type = "server" then
    leave_presence client user.id ("server:" ++ channel_id)
      (some (leaveUserData user additional_data now))
  else
    (.normal false, [])

/-- `ChannelPresenceRequest.validate_channel_type` in the realtime
endpoint: only `room`, `dm` and `server` pass validation. -/
def validate_channel_type (v : String) : Bool :=
  v = "room" || v = "dm" || v = "server"

/-- Outcome of a transport call rendered as the boolean the service
returns. -/
def callOk : CallResult → Bool
  | .ok => true
  | .err _ => false

/-- A transport on which every call succeeds (concrete test double). -/
def transportOk : Transport :=
  { push := fun _ _ => .ok, presenceEnter := fun _ => .ok,
    presenceLeave := fun _ => .ok }

/-- A transport on which every call raises (concrete test double). -/
def transportDown : Transport :=
  { push := fun _ _ => .err "down", presenceEnter := fun _ => .err "down",
    presenceLeave := fun _ => .err "down" }

/-- A user row with id `U` (concrete test fixture). -/
def userEx : UserRow :=
  { id := "U", username := "u", picture_url := none, user_type := "human" }

/-- A friendship store in which `U` and `F1` are accepted friends
(concrete test fixture). -/
def dbEx : List Friendship :=
  [{ user_id := "U", friend_id := "F1", status := .accepted }]

/-! ## String helper lemmas: the four channel families are distinguished
by their first character (`u`/`r`/`d`/`s`), so channels of different
kinds can never collide, whatever the IDs contain. -/

lemma ne_of_head_ne (s t : String) (h : s.data.head? ≠ t.data.head?) :
    s ≠ t :=
  fun he => h (congrArg (fun x : String => x.data.head?) he)

lemma user_ne_room2 (a b c : String) :
    "user:" ++ a ≠ "room:" ++ b ++ ":" ++ c :=
  ne_of_head_ne _ _ (by show (some 'u' : Option Char) ≠ some 'r'; decide)

lemma user_ne_dm (a b : String) : "user:" ++ a ≠ "dm:" ++ b :=
  ne_of_head_ne _ _ (by show (some 'u' : Option Char) ≠ some 'd'; decide)

lemma user_ne_server (a b : String) : "user:" ++ a ≠ "server:" ++ b :=
  ne_of_head_ne _ _ (by show (some 'u' : Option Char) ≠ some 's'; decide)

lemma dm_ne_room2 (a b c : String) :
    "dm:" ++ a ≠ "room:" ++ b ++ ":" ++ c :=
  ne_of_head_ne _ _ (by show (some 'd' : Option Char) ≠ some 'r'; decide)

lemma server_ne_room2 (a b c : String) :
    "server:" ++ a ≠ "room:" ++ b ++ ":" ++ c :=
  ne_of_head_ne _ _ (by show (some 's' : Option Char) ≠ some 'r'; decide)

lemma server_ne_dm (a b : String) : "server:" ++ a ≠ "dm:" ++ b :=
  ne_of_head_ne _ _ (by show (some 's' : Option Char) ≠ some 'd'; decide)

lemma user_ne_room (a b : String) : "user:" ++ a ≠ "room:" ++ b :=
  ne_of_head_ne _ _ (by show (some 'u' : Option Char) ≠ some 'r'; decide)

lemma dm_ne_room (a b : String) : "dm:" ++ a ≠ "room:" ++ b :=
  ne_of_head_ne _ _ (by show (some 'd' : Option Char) ≠ some 'r'; decide)

lemma server_ne_room (a b : String) : "server:" ++ a ≠ "room:" ++ b :=
  ne_of_head_ne _ _ (by show (some 's' : Option Char) ≠ some 'r'; decide)

lemma string_append_left_cancel {p a b : String} (h : p ++ a = p ++ b) :
    a = b := by
  apply String.ext
  have h2 := congrArg String.data h
  rw [String.data_append, String.data_append] at h2
  exact List.append_cancel_left h2

lemma string_append_assoc (a b c : String) : a ++ b ++ c = a ++ (b ++ c) := by
  apply String.ext
  simp [String.data_append, List.append_assoc]

/-! ## Lemmas on the colon split used by the capability builder -/

lemma splitFirstColonAux_join (cs : List Char) :
    ∀ (acc : List Char) (a b : String),
    splitFirstColonAux cs acc = some (a, b) →
    a.data ++ ':' :: b.data = acc.reverse ++ cs := by
  induction cs with
  | nil => intro acc a b h; simp [splitFirstColonAux] at h
  | cons c rest ih =>
    intro acc a b h
    by_cases hc : c = ':'
    · subst hc
      simp [splitFirstColonAux] at h
      obtain ⟨ha, hb⟩ := h
      rw [← ha, ← hb]
    · rw [splitFirstColonAux, if_neg hc] at h
      have h2 := ih (c :: acc) a b h
      rw [h2, List.reverse_cons, List.append_assoc, List.singleton_append]

lemma splitFirstColon_join (s a b : String)
    (h : splitFirstColon s = some (a, b)) : a ++ ":" ++ b = s := by
  apply String.ext
  have h2 := splitFirstColonAux_join s.data [] a b h
  simp only [List.reverse_nil, List.nil_append] at h2
  rw [String.data_append, String.data_append,
    show (":" : String).data = [':'] from rfl]
  rw [List.append_assoc, List.singleton_append, h2]

lemma room_key_eq (a b ri : String) (h : splitFirstColon ri = some (a, b)) :
    "room:" ++ a ++ ":" ++ b = "room:" ++ ri := by
  rw [string_append_assoc, string_append_assoc,
    ← string_append_assoc a ":" b, splitFirstColon_join ri a b h]

lemma splitFirstColonAux_append_colon (l1 : List Char) :
    ∀ (l2 acc : List Char),
    (splitFirstColonAux (l1 ++ ':' :: l2) acc).isSome = true := by
  induction l1 with
  | nil => intro l2 acc; simp [splitFirstColonAux]
  | cons c rest ih =>
    intro l2 acc
    rw [List.cons_append, splitFirstColonAux]
    by_cases hc : c = ':'
    · rw [if_pos hc]; rfl
    · rw [if_neg hc]; exact ih l2 (c :: acc)

lemma splitFirstColon_encode_isSome (x y : String) :
    (splitFirstColon (x ++ ":" ++ y)).isSome = true := by
  unfold splitFirstColon
  rw [show (x ++ ":" ++ y).data = x.data ++ ':' :: y.data by
    rw [String.data_append, String.data_append,
      show (":" : String).data = [':'] from rfl,
      List.append_assoc, List.singleton_append]]
  exact splitFirstColonAux_append_colon x.data y.data []

lemma append_colon_inj : ∀ (l1 l2 t1 t2 : List Char), ':' ∉ l1 → ':' ∉ l2 →
    l1 ++ ':' :: t1 = l2 ++ ':' :: t2 → l1 = l2 ∧ t1 = t2 := by
  intro l1
  induction l1 with
  | nil =>
    intro l2 t1 t2 _ h2 he
    cases l2 with
    | nil => simp only [List.nil_append, List.cons.injEq] at he; exact ⟨rfl, he.2⟩
    | cons c l2' =>
      simp only [List.nil_append, List.cons_append, List.cons.injEq] at he
      exact absurd (he.1 ▸ List.mem_cons_self c l2') h2
  | cons c l1' ih =>
    intro l2 t1 t2 h1 h2 he
    cases l2 with
    | nil =>
      simp only [List.cons_append, List.nil_append, List.cons.injEq] at he
      exact absurd (he.1 ▸ List.mem_cons_self c l1') h1
    | cons c2 l2' =>
      simp only [List.cons_append, List.cons.injEq] at he
      obtain ⟨hc, hrest⟩ := he
      have h1' : ':' ∉ l1' := fun hm => h1 (List.mem_cons_of_mem c hm)
      have h2' : ':' ∉ l2' := fun hm => h2 (List.mem_cons_of_mem c2 hm)
      obtain ⟨hl, ht⟩ := ih l2' t1 t2 h1' h2' hrest
      exact ⟨by rw [hc, hl], ht⟩

lemma room_resolve_inj (a1 b1 a2 b2 : String)
    (h1 : ':' ∉ a1.data) (h2 : ':' ∉ a2.data)
    (he : "room:" ++ a1 ++ ":" ++ b1 = "room:" ++ a2 ++ ":" ++ b2) :
    a1 = a2 ∧ b1 = b2 := by
  have hd := congrArg String.data he
  simp only [String.data_append, List.append_assoc,
    show (":" : String).data = [':'] from rfl, List.singleton_append] at hd
  have hd2 := List.append_cancel_left hd
  obtain ⟨ha, hb⟩ := append_colon_inj a1.data a2.data b1.data b2.data h1 h2 hd2
  exact ⟨String.ext ha, String.ext hb⟩

/-! ## Lemmas on the Python-dict model -/

lemma dictLookup_isSome_iff_any {α : Type} (m : List (String × α))
    (k : String) :
    m.any (fun p => p.1 = k) = true ↔ (dictLookup m k).isSome = true := by
  induction m with
  | nil => simp [dictLookup]
  | cons p rest ih =>
    obtain ⟨pk, pv⟩ := p
    by_cases h : pk = k <;> simp [dictLookup, h, ih]

lemma dictLookup_map_update {α : Type} (m : List (String × α))
    (k k' : String) (v : α) :
    dictLookup (m.map (fun p => if p.1 = k then (k, v) else p)) k' =
      if k = k' then (dictLookup m k).map (fun _ => v)
      else dictLookup m k' := by
  induction m with
  | nil => by_cases h : k = k' <;> simp [dictLookup, h]
  | cons p rest ih =>
    obtain ⟨pk, pv⟩ := p
    simp only [List.map_cons]
    by_cases hpk : pk = k
    · subst hpk
      rw [if_pos rfl]
      by_cases hkk : pk = k'
      · subst hkk; simp [dictLookup, ih]
      · simp [dictLookup, hkk, ih, Ne.symm hkk]
    · rw [if_neg hpk]
      by_cases hpk' : pk = k'
      · subst hpk'
        have hkk : k ≠ pk := fun he => hpk he.symm
        simp [dictLookup, hkk, ih]
      · simp [dictLookup, hpk, hpk', ih]

lemma dictLookup_append_single {α : Type} (m : List (String × α))
    (k k' : String) (v : α) :
    dictLookup (m ++ [(k, v)]) k' =
      match dictLookup m k' with
      | some w => some w
      | none => if k = k' then some v else none := by
  induction m with
  | nil => by_cases h : k = k' <;> simp [dictLookup, h]
  | cons p rest ih =>
    obtain ⟨pk, pv⟩ := p
    by_cases h : pk = k' <;> simp [dictLookup, h, ih]

lemma dictLookup_dictInsert {α : Type} (m : List (String × α))
    (k k' : String) (v : α) :
    dictLookup (dictInsert m k v) k' =
      if k = k' then some v else dictLookup m k' := by
  unfold dictInsert
  by_cases h : m.any (fun p => p.1 = k) = true
  · rw [if_pos h, dictLookup_map_update]
    by_cases hk : k = k'
    · subst hk
      simp only [if_pos rfl]
      obtain ⟨w, hw⟩ :=
        Option.isSome_iff_exists.mp ((dictLookup_isSome_iff_any m k).mp h)
      rw [hw]; rfl
    · simp [hk]
  · rw [if_neg h, dictLookup_append_single]
    by_cases hk : k = k'
    · subst hk
      have hnone : dictLookup m k = none := by
        cases hl : dictLookup m k with
        | none => rfl
        | some w =>
          exact absurd ((dictLookup_isSome_iff_any m k).mpr
            (by rw [hl]; rfl)) h
      rw [hnone]
    · cases hl : dictLookup m k' <;> simp [hk, hl]

lemma dictLookup_foldl_insert {α : Type} (f : String → String) (v : α)
    (xs : List String) (m : List (String × α)) (k : String) :
    dictLookup (xs.foldl (fun acc x => dictInsert acc (f x) v) m) k =
      if ∃ x ∈ xs, f x = k then some v else dictLookup m k := by
  induction xs generalizing m with
  | nil => simp
  | cons x rest ih =>
    rw [List.foldl_cons, ih]
    by_cases hx : ∃ y ∈ rest, f y = k
    · obtain ⟨y, hy, hfy⟩ := hx
      rw [if_pos ⟨y, hy, hfy⟩,
        if_pos ⟨y, List.mem_cons_of_mem x hy, hfy⟩]
    · rw [if_neg hx, dictLookup_dictInsert]
      by_cases hfx : f x = k
      · rw [if_pos hfx, if_pos ⟨x, List.mem_cons_self x rest, hfx⟩]
      · rw [if_neg hfx, if_neg]
        rintro ⟨y, hy, hfy⟩
        rcases List.mem_cons.mp hy with h | h
        · exact hfx (h ▸ hfy)
        · exact hx ⟨y, h, hfy⟩

lemma dictLookup_foldl_dm (xs : List String) (m : Caps) (k : String) :
    dictLookup (xs.foldl (fun caps conversation_id =>
        dictInsert caps ("dm:" ++ conversation_id)
          ["subscribe", "publish"]) m) k =
      if ∃ c ∈ xs, "dm:" ++ c = k then some ["subscribe", "publish"]
      else dictLookup m k :=
  dictLookup_foldl_insert (fun c => "dm:" ++ c) _ xs m k

lemma dictLookup_foldl_server (xs : List String) (m : Caps) (k : String) :
    dictLookup (xs.foldl (fun caps server_id =>
        dictInsert caps ("server:" ++ server_id) ["subscribe"]) m) k =
      if ∃ s ∈ xs, "server:" ++ s = k then some ["subscribe"]
      else dictLookup m k :=
  dictLookup_foldl_insert (fun s => "server:" ++ s) _ xs m k

lemma dictLookup_foldl_room (xs : List String) (m : Caps) (k : String) :
    dictLookup (xs.foldl (fun caps room_info =>
        match splitFirstColon room_info with
        | some (server_id, room_id) =>
          dictInsert caps ("room:" ++ server_id ++ ":" ++ room_id)
            ["subscribe", "publish"]
        | none => caps) m) k =
      if ∃ ri ∈ xs, (splitFirstColon ri).isSome = true ∧ "room:" ++ ri = k
      then some ["subscribe", "publish"]
      else dictLookup m k := by
  induction xs generalizing m with
  | nil => simp
  | cons ri rest ih =>
    rw [List.foldl_cons, ih]
    cases hs : splitFirstColon ri with
    | none =>
      by_cases hx : ∃ y ∈ rest,
          (splitFirstColon y).isSome = true ∧ "room:" ++ y = k
      · obtain ⟨y, hy, hsy, hky⟩ := hx
        rw [if_pos ⟨y, hy, hsy, hky⟩,
          if_pos ⟨y, List.mem_cons_of_mem ri hy, hsy, hky⟩]
      · rw [if_neg hx, if_neg]
        rintro ⟨y, hy, hsy, hky⟩
        rcases List.mem_cons.mp hy with h | h
        · rw [h, hs] at hsy; exact Bool.false_ne_true hsy
        · exact hx ⟨y, h, hsy, hky⟩
    | some ab =>
      obtain ⟨a, b⟩ := ab
      rw [dictLookup_dictInsert, room_key_eq a b ri hs]
      by_cases hx : ∃ y ∈ rest,
          (splitFirstColon y).isSome = true ∧ "room:" ++ y = k
      · obtain ⟨y, hy, hsy, hky⟩ := hx
        rw [if_pos ⟨y, hy, hsy, hky⟩,
          if_pos ⟨y, List.mem_cons_of_mem ri hy, hsy, hky⟩]
      · rw [if_neg hx]
        by_cases hk : "room:" ++ ri = k
        · rw [if_pos hk, if_pos ⟨ri, List.mem_cons_self ri rest,
            by rw [hs]; rfl, hk⟩]
        · rw [if_neg hk, if_neg]
          rintro ⟨y, hy, hsy, hky⟩
          rcases List.mem_cons.mp hy with h | h
          · exact hk (h ▸ hky)
          · exact hx ⟨y, h, hsy, hky⟩

lemma truthyList_fold {α : Type} (xs : List String) (g : α → String → α)
    (m : α) :
    (if truthyList (some xs) then xs.foldl g m else m) = xs.foldl g m := by
  cases xs <;> simp [truthyList]

/-! ## Lemmas on the publishers and the fan-out loop -/

lemma publish_to_user_some (t : Transport) (uid et : String) (d : Json)
    (now : String) :
    publish_to_user (some t) uid et d now =
      (.normal (callOk (t.push ("user:" ++ uid) et)),
       [⟨"user:" ++ uid, et, ⟨et, d, now, some uid⟩⟩]) := by
  simp only [publish_to_user]
  cases t.push ("user:" ++ uid) et <;> rfl

lemma fanout_some (t : Transport) (et : String) (d : Json) (now : String) :
    ∀ (ids : List String) (acc : Bool),
    fanout (some t) et d now ids acc =
      (.normal (acc && ids.all (fun f => callOk (t.push ("user:" ++ f) et))),
       ids.map (fun f => ⟨"user:" ++ f, et, ⟨et, d, now, some f⟩⟩)) := by
  intro ids
  induction ids with
  | nil => intro acc; simp [fanout]
  | cons f rest ih =>
    intro acc
    rw [fanout, publish_to_user_some]
    rw [show (match ((.normal (callOk (t.push ("user:" ++ f) et)) :
          PyResult Bool),
        [(⟨"user:" ++ f, et, ⟨et, d, now, some f⟩⟩ : Push)]) with
      | (.raised m, ps) => ((.raised m : PyResult Bool), ps)
      | (.normal b, ps) =>
        let r := fanout (some t) et d now rest (acc && b)
        (r.1, ps ++ r.2)) =
      (let r := fanout (some t) et d now rest
        (acc && callOk (t.push ("user:" ++ f) et))
       (r.1, [(⟨"user:" ++ f, et, ⟨et, d, now, some f⟩⟩ : Push)] ++ r.2))
      from rfl]
    rw [ih (acc && callOk (t.push ("user:" ++ f) et))]
    simp [List.all_cons, Bool.and_assoc]

lemma publish_user_presence_some (t : Transport) (uid status : String)
    (ud : Json) (friends : List String) (now : String) :
    publish_user_presence (some t) uid status ud (some friends) now =
      (.normal (friends.all (fun f =>
          callOk (t.push ("user:" ++ f) ("presence." ++ status)))),
       friends.map (fun f => ⟨"user:" ++ f, "presence." ++ status,
         ⟨"presence." ++ status,
          .obj [("user", ud), ("status", .str status),
                ("timestamp", .str now)],
          now, some f⟩⟩)) := by
  cases friends with
  | nil => rfl
  | cons f rest =>
    simp only [publish_user_presence, List.isEmpty_cons]
    rw [if_neg (by simp)]
    rw [fanout_some]
    simp

lemma publish_friend_online_some (t : Transport) (friends : List String)
    (ud : Json) (now : String) :
    publish_friend_online (some t) friends ud now =
      (.normal (friends.all (fun f =>
          callOk (t.push ("user:" ++ f) "friend.online"))),
       friends.map (fun f => ⟨"user:" ++ f, "friend.online",
         ⟨"friend.online", .obj [("user", ud), ("status", .str "online")],
          now, some f⟩⟩)) := by
  simp only [publish_friend_online]
  rw [fanout_some]
  simp

lemma publish_to_room_no_raise (client : Option Transport)
    (sid rid et : String) (d : Json) (uid : Option String) (now : String) :
    ∃ b, (publish_to_room client sid rid et d uid now).1 =
      PyResult.normal b := by
  cases client with
  | none => exact ⟨false, rfl⟩
  | some t =>
    simp only [publish_to_room]
    cases t.push ("room:" ++ sid ++ ":" ++ rid) et with
    | ok => exact ⟨true, rfl⟩
    | err m => exact ⟨false, rfl⟩

lemma publish_to_dm_no_raise (client : Option Transport)
    (cid et : String) (d : Json) (uid : Option String) (now : String) :
    ∃ b, (publish_to_dm client cid et d uid now).1 = PyResult.normal b := by
  cases client with
  | none => exact ⟨false, rfl⟩
  | some t =>
    simp only [publish_to_dm]
    cases t.push ("dm:" ++ cid) et with
    | ok => exact ⟨true, rfl⟩
    | err m => exact ⟨false, rfl⟩

lemma publish_to_user_no_raise (client : Option Transport)
    (uid et : String) (d : Json) (now : String) :
    ∃ b, (publish_to_user client uid et d now).1 = PyResult.normal b := by
  cases client with
  | none => exact ⟨false, rfl⟩
  | some t =>
    simp only [publish_to_user]
    cases t.push ("user:" ++ uid) et with
    | ok => exact ⟨true, rfl⟩
    | err m => exact ⟨false, rfl⟩

lemma publish_to_server_no_raise (client : Option Transport)
    (sid et : String) (d : Json) (uid : Option String) (now : String) :
    ∃ b, (publish_to_server client sid et d uid now).1 =
      PyResult.normal b := by
  cases client with
  | none => exact ⟨false, rfl⟩
  | some t =>
    simp only [publish_to_server]
    cases t.push ("server:" ++ sid) et with
    | ok => exact ⟨true, rfl⟩
    | err m => exact ⟨false, rfl⟩

/-! ## Claims -/

/-- C2: none of the publish operations (`publish_to_room`, `publish_to_dm`,
`publish_to_user`, `publish_to_server`) nor the typed message/reaction/typing
wrappers ever raises: on every input, including a transport whose every call
raises, the result is a normal boolean value, so a business operation
committed before the publish call can never be rolled back by a publish
failure; in particular a raising transport yields the failure value
`false`. -/
theorem claim_C2_publish_never_raises :
    (∀ (client : Option Transport) (sid rid et : String) (d : Json)
        (uid : Option String) (now : String),
      ∃ b, (publish_to_room client sid rid et d uid now).1 =
        PyResult.normal b) ∧
    (∀ (client : Option Transport) (cid et : String) (d : Json)
        (uid : Option String) (now : String),
      ∃ b, (publish_to_dm client cid et d uid now).1 = PyResult.normal b) ∧
    (∀ (client : Option Transport) (uid et : String) (d : Json)
        (now : String),
      ∃ b, (publish_to_user client uid et d now).1 = PyResult.normal b) ∧
    (∀ (client : Option Transport) (sid et : String) (d : Json)
        (uid : Option String) (now : String),
      ∃ b, (publish_to_server client sid et d uid now).1 =
        PyResult.normal b) ∧
    (∀ (client : Option Transport) (d : Json)
        (sid rid cid uid : Option String) (now : String),
      ∃ b, (publish_message_created client d sid rid cid uid now).1 =
        PyResult.normal b) ∧
    (∀ (client : Option Transport) (d : Json)
        (sid rid cid uid : Option String) (now : String),
      ∃ b, (publish_message_updated client d sid rid cid uid now).1 =
        PyResult.normal b) ∧
    (∀ (client : Option Transport) (mid delBy : String)
        (sid rid cid : Option String) (now : String),
      ∃ b, (publish_message_deleted client mid delBy sid rid cid now).1 =
        PyResult.normal b) ∧
    (∀ (client : Option Transport) (mid emoji u un : String)
        (sid rid cid : Option String) (now : String),
      ∃ b, (publish_reaction_added client mid emoji u un sid rid cid now).1 =
        PyResult.normal b) ∧
    (∀ (client : Option Transport) (mid emoji u un : String)
        (sid rid cid : Option String) (now : String),
      ∃ b,
        (publish_reaction_removed client mid emoji u un sid rid cid now).1 =
          PyResult.normal b) ∧
    (∀ (client : Option Transport) (u un : String)
        (sid rid cid : Option String) (now : String),
      ∃ b, (publish_typing_start client u un sid rid cid now).1 =
        PyResult.normal b) ∧
    (∀ (client : Option Transport) (u un : String)
        (sid rid cid : Option String) (now : String),
      ∃ b, (publish_typing_stop client u un sid rid cid now).1 =
        PyResult.normal b) ∧
    (∀ (sid rid et : String) (d : Json) (uid : Option String)
        (now : String),
      (publish_to_room (some transportDown) sid rid et d uid now).1 =
        PyResult.normal false) := by
  refine ⟨publish_to_room_no_raise, publish_to_dm_no_raise,
    publish_to_user_no_raise, publish_to_server_no_raise,
    ?_, ?_, ?_, ?_, ?_, ?_, ?_, ?_⟩
  · intro client d sid rid cid uid now
    unfold publish_message_created
    split
    · exact publish_to_room_no_raise _ _ _ _ _ _ _
    · split
      · exact publish_to_dm_no_raise _ _ _ _ _ _
      · exact ⟨false, rfl⟩
  · intro client d sid rid cid uid now
    unfold publish_message_updated
    split
    · exact publish_to_room_no_raise _ _ _ _ _ _ _
    · split
      · exact publish_to_dm_no_raise _ _ _ _ _ _
      · exact ⟨false, rfl⟩
  · intro client mid delBy sid rid cid now
    unfold publish_message_deleted
    split
    · exact publish_to_room_no_raise _ _ _ _ _ _ _
    · split
      · exact publish_to_dm_no_raise _ _ _ _ _ _
      · exact ⟨false, rfl⟩
  · intro client mid emoji u un sid rid cid now
    unfold publish_reaction_added
    split
    · exact publish_to_room_no_raise _ _ _ _ _ _ _
    · split
      · exact publish_to_dm_no_raise _ _ _ _ _ _
      · exact ⟨false, rfl⟩
  · intro client mid emoji u un sid rid cid now
    unfold publish_reaction_removed
    split
    · exact publish_to_room_no_raise _ _ _ _ _ _ _
    · split
      · exact publish_to_dm_no_raise _ _ _ _ _ _
      · exact ⟨false, rfl⟩
  · intro client u un sid rid cid now
    unfold publish_typing_start
    split
    · exact publish_to_room_no_raise _ _ _ _ _ _ _
    · split
      · exact publish_to_dm_no_raise _ _ _ _ _ _
      · exact ⟨false, rfl⟩
  · intro client u un sid rid cid now
    unfold publish_typing_stop
    split
    · exact publish_to_room_no_raise _ _ _ _ _ _ _
    · split
      · exact publish_to_dm_no_raise _ _ _ _ _ _
      · exact ⟨false, rfl⟩
  · intro sid rid et d uid now
    rfl

/-- C6: every typed wrapper whose target fails to resolve — neither a
truthy (server_id, room_id) pair nor a truthy conversation_id — returns
the failure value `false` and performs no transport push at all. -/
theorem claim_C6_unresolved_scope_no_push :
    (∀ (client : Option Transport) (d : Json)
        (sid rid cid uid : Option String) (now : String),
      (truthy rid && truthy sid) = false → truthy cid = false →
      publish_message_created client d sid rid cid uid now =
        (PyResult.normal false, [])) ∧
    (∀ (client : Option Transport) (d : Json)
        (sid rid cid uid : Option String) (now : String),
      (truthy rid && truthy sid) = false → truthy cid = false →
      publish_message_updated client d sid rid cid uid now =
        (PyResult.normal false, [])) ∧
    (∀ (client : Option Transport) (mid delBy : String)
        (sid rid cid : Option String) (now : String),
      (truthy rid && truthy sid) = false → truthy cid = false →
      publish_message_deleted client mid delBy sid rid cid now =
        (PyResult.normal false, [])) ∧
    (∀ (client : Option Transport) (mid emoji u un : String)
        (sid rid cid : Option String) (now : String),
      (truthy rid && truthy sid) = false → truthy cid = false →
      publish_reaction_added client mid emoji u un sid rid cid now =
        (PyResult.normal false, [])) ∧
    (∀ (client : Option Transport) (mid emoji u un : String)
        (sid rid cid : Option String) (now : String),
      (truthy rid && truthy sid) = false → truthy cid = false →
      publish_reaction_removed client mid emoji u un sid rid cid now =
        (PyResult.normal false, [])) ∧
    (∀ (client : Option Transport) (u un : String)
        (sid rid cid : Option String) (now : String),
      (truthy rid && truthy sid) = false → truthy cid = false →
      publish_typing_start client u un sid rid cid now =
        (PyResult.normal false, [])) ∧
    (∀ (client : Option Transport) (u un : String)
        (sid rid cid : Option String) (now : String),
      (truthy rid && truthy sid) = false → truthy cid = false →
      publish_typing_stop client u un sid rid cid now =
        (PyResult.normal false, [])) := by
  refine ⟨?_, ?_, ?_, ?_, ?_, ?_, ?_⟩
  · intro client d sid rid cid uid now hr hc
    simp [publish_message_created, hr, hc]
  · intro client d sid rid cid uid now hr hc
    simp [publish_message_updated, hr, hc]
  · intro client mid delBy sid rid cid now hr hc
    simp [publish_message_deleted, hr, hc]
  · intro client mid emoji u un sid rid cid now hr hc
    simp [publish_reaction_added, hr, hc]
  · intro client mid emoji u un sid rid cid now hr hc
    simp [publish_reaction_removed, hr, hc]
  · intro client u un sid rid cid now hr hc
    simp [publish_typing_start, hr, hc]
  · intro client u un sid rid cid now hr hc
    simp [publish_typing_stop, hr, hc]

/-- C6 witness: with no target at all, each wrapper returns `false`
without any push, even on a healthy transport. -/
theorem claim_C6_witness :
    publish_message_created (some transportOk) (.obj []) none none none
      none "T" = (PyResult.normal false, []) ∧
    publish_typing_start (some transportOk) "U" "u" none none none "T" =
      (PyResult.normal false, []) :=
  ⟨claim_C6_unresolved_scope_no_push.1 (some transportOk) (.obj [])
      none none none none "T" rfl rfl,
   claim_C6_unresolved_scope_no_push.2.2.2.2.2.1 (some transportOk) "U" "u"
      none none none "T" rfl rfl⟩

/-- C7: the presence and friend-online fan-outs perform exactly one
publish per recipient, to that recipient's personal channel
`user:{friendID}`, with event type `presence.{status}` resp.
`friend.online`; every recipient is attempted regardless of earlier
failures, and the aggregate outcome is `true` iff every per-recipient
push succeeded. -/
theorem claim_C7_fanout_per_recipient :
    ∀ (t : Transport) (uid status : String) (ud : Json)
      (friends : List String) (now : String),
    (publish_user_presence (some t) uid status ud (some friends) now).2.map
        (fun p => p.channel) = friends.map (fun f => "user:" ++ f) ∧
    (publish_user_presence (some t) uid status ud (some friends) now).2.map
        (fun p => p.name) = friends.map (fun _ => "presence." ++ status) ∧
    (publish_user_presence (some t) uid status ud (some friends) now).1 =
      PyResult.normal (friends.all (fun f =>
        callOk (t.push ("user:" ++ f) ("presence." ++ status)))) ∧
    (publish_friend_online (some t) friends ud now).2.map
        (fun p => p.channel) = friends.map (fun f => "user:" ++ f) ∧
    (publish_friend_online (some t) friends ud now).1 =
      PyResult.normal (friends.all (fun f =>
        callOk (t.push ("user:" ++ f) "friend.online"))) := by
  intro t uid status ud friends now
  rw [publish_user_presence_some, publish_friend_online_some]
  refine ⟨?_, ?_, rfl, ?_, rfl⟩ <;>
    simp [List.map_map, Function.comp_def, List.map_const]

/-- C8: channel presence accepts only the kinds room, dm and server: any
other channel type — in particular `user` — is rejected with a failure
outcome by both `enter_channel_presence` and `leave_channel_presence`
before any transport presence call, and is likewise rejected by the
endpoint validator. -/
theorem claim_C8_channel_type_validation :
    ∀ (client : Option Transport) (user : UserRow) (ct cid : String)
      (ad : Option (List (String × Json))) (now : String),
    ct ≠ "room" → ct ≠ "dm" → ct ≠ "server" →
    enter_channel_presence client user ct cid ad now =
      (PyResult.normal false, []) ∧
    leave_channel_presence client user ct cid ad now =
      (PyResult.normal false, []) ∧
    validate_channel_type ct = false := by
  intro client user ct cid ad now h1 h2 h3
  refine ⟨?_, ?_, ?_⟩
  · simp [enter_channel_presence, h1, h2, h3]
  · simp [leave_channel_presence, h1, h2, h3]
  · simp [validate_channel_type, h1, h2, h3]

/-- C8 witness: a `user` channel type is rejected with no presence call. -/
theorem claim_C8_witness :
    enter_channel_presence (some transportOk) userEx "user" "X" none "T" =
      (PyResult.normal false, []) ∧
    leave_channel_presence (some transportOk) userEx "user" "X" none "T" =
      (PyResult.normal false, []) ∧
    validate_channel_type "user" = false :=
  claim_C8_channel_type_validation (some transportOk) userEx "user" "X"
    none "T" (by decide) (by decide) (by decide)

/-- C10: a room-membership entry without the `':'` separator is silently
skipped by the capability builder: the result is exactly the result on the
list without that entry (so all well-formed entries keep their grants and
no channel is created for the malformed one), and the builder still
returns a token rather than an error. -/
theorem claim_C10_malformed_room_entry_skipped :
    ∀ (uid : String) (user_servers user_conversations : Option (List String))
      (rooms1 rooms2 : List String) (bad : String),
    splitFirstColon bad = none →
    generate_token_request true uid user_servers
        (some (rooms1 ++ bad :: rooms2)) user_conversations =
      generate_token_request true uid user_servers
        (some (rooms1 ++ rooms2)) user_conversations ∧
    (generate_token_request true uid user_servers
        (some (rooms1 ++ bad :: rooms2)) user_conversations).isSome =
      true := by
  intro uid ss cc rooms1 rooms2 bad h
  constructor
  · simp only [generate_token_request, Option.getD_some]
    rw [truthyList_fold, truthyList_fold,
      List.foldl_append, List.foldl_append, List.foldl_cons, h]
  · simp [generate_token_request]

/-- C10 witness: the entry `R1` (no colon) is dropped, leaving the same
token as without it. -/
theorem claim_C10_witness :
    splitFirstColon "R1" = none ∧
    generate_token_request true "U" (some ["S1"])
        (some (["S1:R1"] ++ "R1" :: [])) (some ["C1"]) =
      generate_token_request true "U" (some ["S1"])
        (some (["S1:R1"] ++ [])) (some ["C1"]) :=
  ⟨by decide,
   (claim_C10_malformed_room_entry_skipped "U" (some ["S1"]) (some ["C1"])
      ["S1:R1"] [] "R1" (by decide)).1⟩

/-- C4 counterexample: a presence push to friend `F1` from originator `U`
carries `user_id = F1` (the recipient/channel owner), not the
originator `U` — the claim that a personal-channel envelope's `user_id`
identifies the originator fails. -/
theorem claim_C4_counterexample :
    (publish_user_presence (some transportOk) "U" "away" (.obj [])
        (some ["F1"]) "T").2.map (fun p => p.envelope.user_id) =
      [some "F1"] ∧
    (some "F1" : Option String) ≠ some "U" := by
  exact ⟨rfl, by decide⟩

/-- C4 (amended): every envelope has exactly the fields
`{type, data, timestamp, user_id}` with `type` the `category.action` tag,
but on personal channels (`user:{id}`) the `user_id` field is the channel
owner — the recipient — not the event's originator; on room channels it
is the `user_id` the caller passed (originator or null). -/
theorem claim_C4_envelope_shape :
    (∀ (t : Transport) (sid rid et : String) (d : Json)
        (uid : Option String) (now : String),
      (publish_to_room (some t) sid rid et d uid now).2 =
        [⟨"room:" ++ sid ++ ":" ++ rid, et, ⟨et, d, now, uid⟩⟩]) ∧
    (∀ (t : Transport) (uid et : String) (d : Json) (now : String),
      (publish_to_user (some t) uid et d now).2 =
        [⟨"user:" ++ uid, et, ⟨et, d, now, some uid⟩⟩]) ∧
    (∀ (t : Transport) (uid status : String) (ud : Json)
        (friends : List String) (now : String),
      (publish_user_presence (some t) uid status ud (some friends)
          now).2.map (fun p => p.envelope.user_id) =
        friends.map (fun f => some f)) := by
  refine ⟨?_, ?_, ?_⟩
  · intro t sid rid et d uid now
    simp only [publish_to_room]
    cases t.push ("room:" ++ sid ++ ":" ++ rid) et <;> rfl
  · intro t uid et d now
    rw [publish_to_user_some]
  · intro t uid status ud friends now
    rw [publish_user_presence_some]
    simp [List.map_map, Function.comp_def]

/-- C3 counterexample: with one accepted friend, the same status update
reports success on a healthy transport and failure on an unconfigured
one — the overall outcome depends entirely on the fan-out delivery, and
no status record is written anywhere (the call's only effect is the
fan-out pushes). -/
theorem claim_C3_counterexample :
    (update_user_status (some transportOk) dbEx userEx "away" none "T").1 =
      PyResult.normal true ∧
    (update_user_status none dbEx userEx "away" none "T").1 =
      PyResult.normal false := by
  exact ⟨rfl, rfl⟩

/-- C3 (amended): `update_user_status` computes the user's accepted
friends, fans a `presence.{status}` event out to each friend's personal
channel, and reports success iff every per-friend publish succeeded; it
persists no per-user status record — the outcome is exactly the
fan-out's aggregate outcome, not independent of it. -/
theorem claim_C3_update_status_fanout :
    ∀ (t : Transport) (db : List Friendship) (user : UserRow)
      (status : String) (md : Option (List (String × Json)))
      (now : String),
    (update_user_status (some t) db user status md now).2.map
        (fun p => p.channel) =
      (friendIdsOf db user.id).map (fun f => "user:" ++ f) ∧
    (update_user_status (some t) db user status md now).2.map
        (fun p => p.name) =
      (friendIdsOf db user.id).map (fun _ => "presence." ++ status) ∧
    (update_user_status (some t) db user status md now).1 =
      PyResult.normal ((friendIdsOf db user.id).all (fun f =>
        callOk (t.push ("user:" ++ f) ("presence." ++ status)))) := by
  intro t db user status md now
  simp only [update_user_status]
  rw [publish_user_presence_some]
  refine ⟨?_, ?_, rfl⟩ <;>
    simp [List.map_map, Function.comp_def, List.map_const]

/-- C9: in every dual-target wrapper the room target wins: with a
complete nonempty (server_id, room_id) pair the event goes only to the
room channel whatever conversation_id holds (and every push of
`publish_to_room` is on the `room:{sid}:{rid}` channel, so the DM channel
receives nothing); with room_id but no server_id the room branch is
skipped — the event goes to the DM channel when a conversation_id is
present and the call fails otherwise. -/
theorem claim_C9_room_precedence :
    (∀ (client : Option Transport) (d : Json) (sid rid : String)
        (cid uid : Option String) (now : String), sid ≠ "" → rid ≠ "" →
      publish_message_created client d (some sid) (some rid) cid uid now =
        publish_to_room client sid rid "message.created" d uid now) ∧
    (∀ (client : Option Transport) (d : Json) (rid cid : String)
        (uid : Option String) (now : String), cid ≠ "" →
      publish_message_created client d none (some rid) (some cid) uid now =
        publish_to_dm client cid "message.created" d uid now) ∧
    (∀ (client : Option Transport) (d : Json) (rid : String)
        (uid : Option String) (now : String),
      publish_message_created client d none (some rid) none uid now =
        (PyResult.normal false, [])) ∧
    (∀ (client : Option Transport) (d : Json) (sid rid : String)
        (cid uid : Option String) (now : String), sid ≠ "" → rid ≠ "" →
      publish_message_updated client d (some sid) (some rid) cid uid now =
        publish_to_room client sid rid "message.updated" d uid now) ∧
    (∀ (client : Option Transport) (d : Json) (rid cid : String)
        (uid : Option String) (now : String), cid ≠ "" →
      publish_message_updated client d none (some rid) (some cid) uid now =
        publish_to_dm client cid "message.updated" d uid now) ∧
    (∀ (client : Option Transport) (d : Json) (rid : String)
        (uid : Option String) (now : String),
      publish_message_updated client d none (some rid) none uid now =
        (PyResult.normal false, [])) ∧
    (∀ (client : Option Transport) (mid delBy sid rid : String)
        (cid : Option String) (now : String), sid ≠ "" → rid ≠ "" →
      publish_message_deleted client mid delBy (some sid) (some rid) cid
          now =
        publish_to_room client sid rid "message.deleted"
          (.obj [("message_id", .str mid), ("deleted_by", .str delBy)])
          (some delBy) now) ∧
    (∀ (client : Option Transport) (mid delBy rid cid : String)
        (now : String), cid ≠ "" →
      publish_message_deleted client mid delBy none (some rid) (some cid)
          now =
        publish_to_dm client cid "message.deleted"
          (.obj [("message_id", .str mid), ("deleted_by", .str delBy)])
          (some delBy) now) ∧
    (∀ (client : Option Transport) (mid delBy rid : String)
        (now : String),
      publish_message_deleted client mid delBy none (some rid) none now =
        (PyResult.normal false, [])) ∧
    (∀ (client : Option Transport) (mid emoji u un sid rid : String)
        (cid : Option String) (now : String), sid ≠ "" → rid ≠ "" →
      publish_reaction_added client mid emoji u un (some sid) (some rid)
          cid now =
        publish_to_room client sid rid "reaction.added"
          (.obj [("message_id", .str mid), ("emoji", .str emoji),
            ("user_id", .str u), ("username", .str un)]) (some u) now) ∧
    (∀ (client : Option Transport) (mid emoji u un rid cid : String)
        (now : String), cid ≠ "" →
      publish_reaction_added client mid emoji u un none (some rid)
          (some cid) now =
        publish_to_dm client cid "reaction.added"
          (.obj [("message_id", .str mid), ("emoji", .str emoji),
            ("user_id", .str u), ("username", .str un)]) (some u) now) ∧
    (∀ (client : Option Transport) (mid emoji u un rid : String)
        (now : String),
      publish_reaction_added client mid emoji u un none (some rid) none
          now = (PyResult.normal false, [])) ∧
    (∀ (client : Option Transport) (mid emoji u un sid rid : String)
        (cid : Option String) (now : String), sid ≠ "" → rid ≠ "" →
      publish_reaction_removed client mid emoji u un (some sid) (some rid)
          cid now =
        publish_to_room client sid rid "reaction.removed"
          (.obj [("message_id", .str mid), ("emoji", .str emoji),
            ("user_id", .str u), ("username", .str un)]) (some u) now) ∧
    (∀ (client : Option Transport) (mid emoji u un rid cid : String)
        (now : String), cid ≠ "" →
      publish_reaction_removed client mid emoji u un none (some rid)
          (some cid) now =
        publish_to_dm client cid "reaction.removed"
          (.obj [("message_id", .str mid), ("emoji", .str emoji),
            ("user_id", .str u), ("username", .str un)]) (some u) now) ∧
    (∀ (client : Option Transport) (mid emoji u un rid : String)
        (now : String),
      publish_reaction_removed client mid emoji u un none (some rid) none
          now = (PyResult.normal false, [])) ∧
    (∀ (client : Option Transport) (u un sid rid : String)
        (cid : Option String) (now : String), sid ≠ "" → rid ≠ "" →
      publish_typing_start client u un (some sid) (some rid) cid now =
        publish_to_room client sid rid "typing.start"
          (.obj [("user_id", .str u), ("username", .str un),
            ("action", .str "start")]) (some u) now) ∧
    (∀ (client : Option Transport) (u un rid cid : String)
        (now : String), cid ≠ "" →
      publish_typing_start client u un none (some rid) (some cid) now =
        publish_to_dm client cid "typing.start"
          (.obj [("user_id", .str u), ("username", .str un),
            ("action", .str "start")]) (some u) now) ∧
    (∀ (client : Option Transport) (u un rid : String) (now : String),
      publish_typing_start client u un none (some rid) none now =
        (PyResult.normal false, [])) ∧
    (∀ (client : Option Transport) (u un sid rid : String)
        (cid : Option String) (now : String), sid ≠ "" → rid ≠ "" →
      publish_typing_stop client u un (some sid) (some rid) cid now =
        publish_to_room client sid rid "typing.stop"
          (.obj [("user_id", .str u), ("username", .str un),
            ("action", .str "stop")]) (some u) now) ∧
    (∀ (client : Option Transport) (u un rid cid : String)
        (now : String), cid ≠ "" →
      publish_typing_stop client u un none (some rid) (some cid) now =
        publish_to_dm client cid "typing.stop"
          (.obj [("user_id", .str u), ("username", .str un),
            ("action", .str "stop")]) (some u) now) ∧
    (∀ (client : Option Transport) (u un rid : String) (now : String),
      publish_typing_stop client u un none (some rid) none now =
        (PyResult.normal false, [])) ∧
    (∀ (t : Transport) (sid rid et : String) (d : Json)
        (uid : Option String) (now : String),
      (publish_to_room (some t) sid rid et d uid now).2.map
        (fun p => p.channel) = ["room:" ++ sid ++ ":" ++ rid]) := by
  refine ⟨?_, ?_, ?_, ?_, ?_, ?_, ?_, ?_, ?_, ?_, ?_, ?_, ?_, ?_, ?_,
    ?_, ?_, ?_, ?_, ?_, ?_, ?_⟩
  · intro client d sid rid cid uid now hs hr
    simp [publish_message_created, truthy, hs, hr]
  · intro client d rid cid uid now hc
    simp [publish_message_created, truthy, hc]
  · intro client d rid uid now
    simp [publish_message_created, truthy]
  · intro client d sid rid cid uid now hs hr
    simp [publish_message_updated, truthy, hs, hr]
  · intro client d rid cid uid now hc
    simp [publish_message_updated, truthy, hc]
  · intro client d rid uid now
    simp [publish_message_updated, truthy]
  · intro client mid delBy sid rid cid now hs hr
    simp [publish_message_deleted, truthy, hs, hr]
  · intro client mid delBy rid cid now hc
    simp [publish_message_deleted, truthy, hc]
  · intro client mid delBy rid now
    simp [publish_message_deleted, truthy]
  · intro client mid emoji u un sid rid cid now hs hr
    simp [publish_reaction_added, truthy, hs, hr]
  · intro client mid emoji u un rid cid now hc
    simp [publish_reaction_added, truthy, hc]
  · intro client mid emoji u un rid now
    simp [publish_reaction_added, truthy]
  · intro client mid emoji u un sid rid cid now hs hr
    simp [publish_reaction_removed, truthy, hs, hr]
  · intro client mid emoji u un rid cid now hc
    simp [publish_reaction_removed, truthy, hc]
  · intro client mid emoji u un rid now
    simp [publish_reaction_removed, truthy]
  · intro client u un sid rid cid now hs hr
    simp [publish_typing_start, truthy, hs, hr]
  · intro client u un rid cid now hc
    simp [publish_typing_start, truthy, hc]
  · intro client u un rid now
    simp [publish_typing_start, truthy]
  · intro client u un sid rid cid now hs hr
    simp [publish_typing_stop, truthy, hs, hr]
  · intro client u un rid cid now hc
    simp [publish_typing_stop, truthy, hc]
  · intro client u un rid now
    simp [publish_typing_stop, truthy]
  · intro t sid rid et d uid now
    simp only [publish_to_room]
    cases t.push ("room:" ++ sid ++ ":" ++ rid) et <;> rfl

/-- C9 witness: with both a room pair and a conversation a
message-created event is routed to the room channel; with room_id but no
server_id it is routed to the DM channel. -/
theorem claim_C9_witness :
    publish_message_created (some transportOk) (.obj []) (some "S")
        (some "R") (some "C") (some "U") "T" =
      publish_to_room (some transportOk) "S" "R" "message.created"
        (.obj []) (some "U") "T" ∧
    publish_message_created (some transportOk) (.obj []) none (some "R")
        (some "C") (some "U") "T" =
      publish_to_dm (some transportOk) "C" "message.created" (.obj [])
        (some "U") "T" :=
  ⟨claim_C9_room_precedence.1 (some transportOk) (.obj []) "S" "R"
      (some "C") (some "U") "T" (by decide) (by decide),
   claim_C9_room_precedence.2.1 (some transportOk) (.obj []) "R" "C"
      (some "U") "T" (by decide)⟩

/-- C5 counterexample: the code never rejects IDs containing `':'`
(`resolveScope` is total, with no `InvalidScope` path), and with such IDs
channel-name resolution is not injective: the two distinct room scopes
`(a, b:c)` and `(a:b, c)` resolve to the same string `room:a:b:c`. -/
theorem claim_C5_counterexample :
    resolveScope (.room "a" "b:c") = resolveScope (.room "a:b" "c") ∧
    ChannelScope.room "a" "b:c" ≠ ChannelScope.room "a:b" "c" := by
  exact ⟨rfl, by decide⟩

/-- C5 (amended): channel-name resolution is injective on scopes whose
IDs are free of the `':'` delimiter; the code performs no `InvalidScope`
rejection, so for colon-containing IDs distinct scopes can collide (see
the counterexample). -/
theorem claim_C5_resolve_injective :
    ∀ (s1 s2 : ChannelScope), scopeColonFree s1 = true →
    scopeColonFree s2 = true → resolveScope s1 = resolveScope s2 →
    s1 = s2 := by
  intro s1 s2 h1 h2 he
  cases s1 with
  | room a1 b1 =>
    cases s2 with
    | room a2 b2 =>
      simp only [resolveScope] at he
      simp only [scopeColonFree, Bool.and_eq_true, Bool.not_eq_true'] at h1 h2
      have h1a : ':' ∉ a1.data := by
        have := h1.1; simp [List.contains] at this; exact this
      have h2a : ':' ∉ a2.data := by
        have := h2.1; simp [List.contains] at this; exact this
      obtain ⟨ha, hb⟩ := room_resolve_inj a1 b1 a2 b2 h1a h2a he
      rw [ha, hb]
    | dm c =>
      simp only [resolveScope] at he
      exact absurd he (Ne.symm (dm_ne_room2 c a1 b1))
    | user u =>
      simp only [resolveScope] at he
      exact absurd he (Ne.symm (user_ne_room2 u a1 b1))
    | server s =>
      simp only [resolveScope] at he
      exact absurd he (Ne.symm (server_ne_room2 s a1 b1))
  | dm c1 =>
    cases s2 with
    | room a2 b2 =>
      simp only [resolveScope] at he
      exact absurd he (dm_ne_room2 c1 a2 b2)
    | dm c2 =>
      simp only [resolveScope] at he
      rw [string_append_left_cancel he]
    | user u =>
      simp only [resolveScope] at he
      exact absurd he (Ne.symm (user_ne_dm u c1))
    | server s =>
      simp only [resolveScope] at he
      exact absurd he (Ne.symm (server_ne_dm s c1))
  | user u1 =>
    cases s2 with
    | room a2 b2 =>
      simp only [resolveScope] at he
      exact absurd he (user_ne_room2 u1 a2 b2)
    | dm c2 =>
      simp only [resolveScope] at he
      exact absurd he (user_ne_dm u1 c2)
    | user u2 =>
      simp only [resolveScope] at he
      rw [string_append_left_cancel he]
    | server s =>
      simp only [resolveScope] at he
      exact absurd he (user_ne_server u1 s)
  | server s1 =>
    cases s2 with
    | room a2 b2 =>
      simp only [resolveScope] at he
      exact absurd he (server_ne_room2 s1 a2 b2)
    | dm c2 =>
      simp only [resolveScope] at he
      exact absurd he (server_ne_dm s1 c2)
    | user u2 =>
      simp only [resolveScope] at he
      exact absurd he (Ne.symm (user_ne_server u2 s1))
    | server s2 =>
      simp only [resolveScope] at he
      rw [string_append_left_cancel he]

/-- C5 witness: on colon-free IDs the injectivity theorem applies. -/
theorem claim_C5_witness :
    scopeColonFree (.room "S" "R") = true ∧
    ChannelScope.room "S" "R" = ChannelScope.room "S" "R" :=
  ⟨by decide,
   claim_C5_resolve_injective (.room "S" "R") (.room "S" "R") (by decide)
     (by decide) rfl⟩

/-- C1: the capability map built for a user is exactly
`user:{userID} -> [subscribe]` (never publish), plus
`room:{serverID}:{roomID} -> [subscribe, publish]` for each room
membership pair, `dm:{conversationID} -> [subscribe, publish]` for each
conversation membership, and `server:{serverID} -> [subscribe]` for each
server membership; in particular with all memberships empty the map
holds exactly the single personal-channel entry. -/
theorem claim_C1_capability_grant :
    ∀ (uid : String) (servers : List String)
      (rooms : List (String × String)) (convos : List String)
      (channel : String) (perms : List String),
    dictLookup (tokenCaps (generate_token_request true uid (some servers)
        (some (rooms.map (fun p => p.1 ++ ":" ++ p.2))) (some convos)))
      channel = some perms ↔
    ((channel = "user:" ++ uid ∧ perms = ["subscribe"]) ∨
     (∃ p ∈ rooms, channel = "room:" ++ p.1 ++ ":" ++ p.2 ∧
        perms = ["subscribe", "publish"]) ∨
     (∃ c ∈ convos, channel = "dm:" ++ c ∧
        perms = ["subscribe", "publish"]) ∨
     (∃ s ∈ servers, channel = "server:" ++ s ∧
        perms = ["subscribe"])) := by
  intro uid servers rooms convos channel perms
  have hmap : (∃ ri ∈ rooms.map (fun p => p.1 ++ ":" ++ p.2),
      (splitFirstColon ri).isSome = true ∧ "room:" ++ ri = channel) ↔
      (∃ p ∈ rooms, "room:" ++ p.1 ++ ":" ++ p.2 = channel) := by
    constructor
    · rintro ⟨ri, hri, hsi, hki⟩
      obtain ⟨p, hp, rfl⟩ := List.mem_map.mp hri
      refine ⟨p, hp, ?_⟩
      rw [← hki]
      simp [string_append_assoc]
    · rintro ⟨p, hp, hk⟩
      refine ⟨p.1 ++ ":" ++ p.2, List.mem_map.mpr ⟨p, hp, rfl⟩,
        splitFirstColon_encode_isSome p.1 p.2, ?_⟩
      rw [← hk]
      simp [string_append_assoc]
  simp only [generate_token_request, Bool.not_true, Bool.false_eq_true,
    if_false, Option.getD_some, tokenCaps]
  rw [truthyList_fold, truthyList_fold, truthyList_fold]
  rw [dictLookup_foldl_server, dictLookup_foldl_dm, dictLookup_foldl_room]
  simp only [hmap]
  constructor
  · intro h
    split_ifs at h with h1 h2 h3
    · obtain ⟨s, hs, hk⟩ := h1
      exact .inr (.inr (.inr ⟨s, hs, hk.symm, (Option.some.inj h).symm⟩))
    · obtain ⟨c, hc, hk⟩ := h2
      exact .inr (.inr (.inl ⟨c, hc, hk.symm, (Option.some.inj h).symm⟩))
    · obtain ⟨p, hp, hk⟩ := h3
      exact .inr (.inl ⟨p, hp, hk.symm, (Option.some.inj h).symm⟩)
    · by_cases h4 : "user:" ++ uid = channel
      · simp only [dictLookup, if_pos h4] at h
        exact .inl ⟨h4.symm, (Option.some.inj h).symm⟩
      · simp only [dictLookup, if_neg h4] at h
        exact absurd h (by simp)
  · intro h
    rcases h with ⟨hch, hpm⟩ | ⟨p, hp, hch, hpm⟩ | ⟨c, hc, hch, hpm⟩ |
      ⟨s, hs, hch, hpm⟩
    · have h1 : ¬ ∃ s ∈ servers, "server:" ++ s = channel := by
        rintro ⟨s, -, hk⟩
        rw [hch] at hk
        exact user_ne_server uid s hk.symm
      have h2 : ¬ ∃ c ∈ convos, "dm:" ++ c = channel := by
        rintro ⟨c, -, hk⟩
        rw [hch] at hk
        exact user_ne_dm uid c hk.symm
      have h3 : ¬ ∃ p ∈ rooms, "room:" ++ p.1 ++ ":" ++ p.2 = channel := by
        rintro ⟨p, -, hk⟩
        rw [hch] at hk
        exact user_ne_room2 uid p.1 p.2 hk.symm
      rw [if_neg h1, if_neg h2, if_neg h3, hch, hpm]
      simp [dictLookup]
    · have h1 : ¬ ∃ s ∈ servers, "server:" ++ s = channel := by
        rintro ⟨s, -, hk⟩
        rw [hch] at hk
        exact server_ne_room2 s p.1 p.2 hk
      have h2 : ¬ ∃ c ∈ convos, "dm:" ++ c = channel := by
        rintro ⟨c, -, hk⟩
        rw [hch] at hk
        exact dm_ne_room2 c p.1 p.2 hk
      rw [if_neg h1, if_neg h2, if_pos ⟨p, hp, hch.symm⟩, hpm]
    · have h1 : ¬ ∃ s ∈ servers, "server:" ++ s = channel := by
        rintro ⟨s, -, hk⟩
        rw [hch] at hk
        exact server_ne_dm s c hk
      rw [if_neg h1, if_pos ⟨c, hc, hch.symm⟩, hpm]
    · rw [if_pos ⟨s, hs, hch.symm⟩, hpm]

end AIGM
